import Mathlib

/-!
Shallow embedding of the two PDF-generation scripts of the
HFC-Android-Config-Guide repository:

* `src/create_mobile_pdfs.py`            (the "plain" variant)
* `src/create_mobile_optimized_pdfs.py`  (the "mobile-optimized" variant)

Lengths in PDF points are modelled as rationals; pixel sizes as naturals.
`Image.open` either yields the pixel size or raises, which we model by an
`Option (Nat × Nat)` attached to each candidate file.  The success of the
final `c.save()` call depends on the file system and is passed in as a
boolean.  Console `print` calls are modelled as a log list.
-/

namespace HFCGuide

/-- A5 page width in points, as reportlab computes it:
`148 * mm` where `mm = 72 / 25.4`. -/
def a5Width : ℚ := 148 * 72 / (254 / 10)

/-- A5 page height in points: `210 * mm` where `mm = 72 / 25.4`. -/
def a5Height : ℚ := 210 * 72 / (254 / 10)

/-- The fixed page geometry a script works with: page size, margin, and the
extra vertical space the optimized variant reserves for the page number. -/
structure PageGeometry where
  pageWidth : ℚ
  pageHeight : ℚ
  margin : ℚ
  footerReserve : ℚ
deriving DecidableEq

/-- Geometry of `create_mobile_pdfs.py`: A5, `margin = 20`, no extra
footer space (`max_height = page_height - 2*margin`). -/
def plainGeom : PageGeometry :=
  { pageWidth := a5Width, pageHeight := a5Height, margin := 20, footerReserve := 0 }

/-- Geometry of `create_mobile_optimized_pdfs.py`: A5 (portrait(A5) = A5),
`margin = 15`, and 25 extra points reserved for the page number
(`max_height = page_height - 2*margin - 25`). -/
def optimizedGeom : PageGeometry :=
  { pageWidth := a5Width, pageHeight := a5Height, margin := 15, footerReserve := 25 }

/-- `max_width = page_width - 2*margin`. -/
def PageGeometry.maxWidth (g : PageGeometry) : ℚ := g.pageWidth - 2 * g.margin

/-- `max_height = page_height - 2*margin` minus the reserved footer space. -/
def PageGeometry.maxHeight (g : PageGeometry) : ℚ :=
  g.pageHeight - 2 * g.margin - g.footerReserve

/-- The scale-and-place result computed for one image. -/
structure Placement where
  scale : ℚ
  newWidth : ℚ
  newHeight : ℚ
  xPos : ℚ
  yPos : ℚ
deriving DecidableEq

/-- The per-image layout computation both scripts share:
`width_ratio = max_width / img_width`, `height_ratio = max_height / img_height`,
`scale_factor = min(width_ratio, height_ratio)`,
`new_width/new_height = img dimensions * scale_factor`,
`x_pos = (page_width - new_width)/2`, `y_pos = (page_height - new_height)/2`. -/
def layoutImage (g : PageGeometry) (imgWidth imgHeight : ℕ) : Placement :=
  let ratioW : ℚ := g.maxWidth / imgWidth
  let ratioH : ℚ := g.maxHeight / imgHeight
  let scaleFactor := min ratioW ratioH
  let newWidth := imgWidth * scaleFactor
  let newHeight := imgHeight * scaleFactor
  { scale := scaleFactor
    newWidth := newWidth
    newHeight := newHeight
    xPos := (g.pageWidth - newWidth) / 2
    yPos := (g.pageHeight - newHeight) / 2 }

/-- A candidate file of the source directory: its name, and the pixel size
`PIL.Image.open` reports, or `none` when opening/decoding raises. -/
structure SrcImage where
  name : String
  decoded : Option (ℕ × ℕ)
deriving DecidableEq

/-- The extension list both scripts glob for, in source order. -/
def imageExts : List String := [".png", ".jpg", ".jpeg", ".gif"]

/-- Whether `Path(folder).glob('*' + ext)` matches a file name: `*` matches
any (possibly empty) leading sequence, so the pattern matches exactly the
names ending with the extension — hidden (dot-prefixed) files included,
since pathlib's glob does not special-case a leading dot.  Stated over the
underlying character lists. -/
def globMatch (ext : String) (name : String) : Bool :=
  ext.data.isSuffixOf name.data

/-- `image_files.extend(list(Path(image_folder).glob(f'*{ext}')))` for each
extension: the per-extension matches concatenated in extension order.
The input list is the directory listing in whatever order the OS returns. -/
def collectImages (dir : List SrcImage) : List SrcImage :=
  imageExts.flatMap (fun ext => dir.filter (fun f => globMatch ext f.name))

/-- Python string comparison `s1 <= s2`: lexicographic by character code
point, a shorter string preceding every extension of itself. -/
def lexLe : List Char → List Char → Bool
  | [], _ => true
  | _ :: _, [] => false
  | a :: as, b :: bs => if a < b then true else if b < a then false else lexLe as bs

/-- The sort key `key=lambda x: x.name`: comparison of file names. -/
def nameLE (a b : SrcImage) : Prop := lexLe a.name.data b.name.data = true

instance : DecidableRel nameLE := fun a b =>
  instDecidableEqBool (lexLe a.name.data b.name.data) true

instance : IsTrans SrcImage nameLE := by
  constructor
  have key : ∀ as bs cs : List Char,
      lexLe as bs = true → lexLe bs cs = true → lexLe as cs = true := by
    intro as
    induction as with
    | nil => intro bs cs _ _; rfl
    | cons a as ih =>
      intro bs cs hab hbc
      cases bs with
      | nil => simp [lexLe] at hab
      | cons b bs =>
        cases cs with
        | nil => simp [lexLe] at hbc
        | cons c cs =>
          simp only [lexLe] at hab hbc ⊢
          rcases lt_trichotomy a b with h1 | h1 | h1
          · rcases lt_trichotomy b c with h2 | h2 | h2
            · simp [lt_trans h1 h2]
            · subst h2; simp [h1]
            · rw [if_neg (lt_asymm h2), if_pos h2] at hbc; simp at hbc
          · subst h1
            rw [if_neg (lt_irrefl a), if_neg (lt_irrefl a)] at hab
            by_cases h2 : a < c
            · rw [if_pos h2]
            · rw [if_neg h2] at hbc ⊢
              by_cases h3 : c < a
              · rw [if_pos h3] at hbc; simp at hbc
              · rw [if_neg h3] at hbc ⊢
                exact ih _ _ hab hbc
          · rw [if_neg (lt_asymm h1), if_pos h1] at hab; simp at hab
  exact fun a b c hab hbc => key _ _ _ hab hbc

instance : IsTotal SrcImage nameLE := by
  constructor
  have key : ∀ as bs : List Char, lexLe as bs = true ∨ lexLe bs as = true := by
    intro as
    induction as with
    | nil => intro bs; exact Or.inl rfl
    | cons a as ih =>
      intro bs
      cases bs with
      | nil => exact Or.inr rfl
      | cons b bs =>
        simp only [lexLe]
        rcases lt_trichotomy a b with h | h | h
        · exact Or.inl (by rw [if_pos h])
        · subst h
          rcases ih bs with h2 | h2
          · exact Or.inl (by rw [if_neg (lt_irrefl a), if_neg (lt_irrefl a)]; exact h2)
          · exact Or.inr (by rw [if_neg (lt_irrefl a), if_neg (lt_irrefl a)]; exact h2)
        · exact Or.inr (by rw [if_pos h])
  exact fun a b => key _ _

/-- `image_files.sort(key=lambda x: x.name)`: a stable sort by file name.
Python's `list.sort` is a stable sort; we model it with insertion sort,
which is likewise stable (and agrees with every stable sort by the same
key). -/
def sortByName (files : List SrcImage) : List SrcImage :=
  files.insertionSort nameLE

/-- The sorted list of matched image files of a directory. -/
def sortedImages (dir : List SrcImage) : List SrcImage :=
  sortByName (collectImages dir)

/-- Whether the per-image `try` body runs to completion for this file:
`Image.open` must succeed, and neither pixel dimension may be zero
(a zero dimension makes `max_width / img_width` or `max_height / img_height`
raise `ZeroDivisionError`, which the handler catches). -/
def decodesOk (f : SrcImage) : Bool :=
  match f.decoded with
  | some (w, h) => !(w == 0) && !(h == 0)
  | none => false

/-- One `drawCentredString` or `rect` call on the canvas. -/
inductive DrawOp where
  | rect (x y w h : ℚ)
  | centred (x y : ℚ) (font : String) (size : ℚ) (text : String)
deriving DecidableEq

/-- The page-number string drawn at the bottom of an image page:
the plain script draws `"Page {i+1}"`, the optimized script
`"Page {i+1} of {len(image_files)}"`. -/
inductive PageLabel where
  | plain (n : ℕ)
  | ofTotal (n total : ℕ)
deriving DecidableEq

/-- The 1-indexed number printed by a page label. -/
def PageLabel.num : PageLabel → ℕ
  | .plain n => n
  | .ofTotal n _ => n

/-- One page of the produced document. -/
inductive Page where
  | title (ops : List DrawOp)
  | image (name : String) (pl : Placement) (label : PageLabel)
deriving DecidableEq

/-- Whether a page is an image page. -/
def Page.isImage : Page → Bool
  | .image _ _ _ => true
  | _ => false

/-- Whether a page is a title page. -/
def Page.isTitle : Page → Bool
  | .title _ => true
  | _ => false

/-- The placement of an image page, `none` for a title page. -/
def Page.placementOf : Page → Option Placement
  | .image _ pl _ => some pl
  | .title _ => none

/-- The source file name of an image page (`""` for a title page). -/
def Page.imageName : Page → String
  | .image n _ _ => n
  | .title _ => ""

/-- The 1-indexed number printed on an image page (0 for a title page). -/
def Page.labelNum : Page → ℕ
  | .image _ _ lab => lab.num
  | .title _ => 0

/-- Console messages the scripts print while converting one directory. -/
inductive LogMsg where
  | noImagesFound
  | addingImage (idx total : ℕ) (name : String)
  | errorProcessing (name : String)
  | pdfCreated
  | errorSaving
deriving DecidableEq

/-- Whether a log message is a per-image `Error processing` warning. -/
def LogMsg.isErrorMsg : LogMsg → Bool
  | .errorProcessing _ => true
  | _ => false

/-- What distinguishes the two scripts inside the image loop: the geometry
and the page-number label format. -/
structure Variant where
  geom : PageGeometry
  mkLabel : ℕ → ℕ → PageLabel

/-- The `create_mobile_pdfs.py` loop parameters. -/
def plainVariant : Variant :=
  { geom := plainGeom, mkLabel := fun n _ => PageLabel.plain n }

/-- The `create_mobile_optimized_pdfs.py` loop parameters. -/
def optimizedVariant : Variant :=
  { geom := optimizedGeom, mkLabel := fun n total => PageLabel.ofTotal n total }

/-- The `for i, img_path in enumerate(image_files)` loop, carrying the
0-based index `idx` and `total = len(image_files)`.  Each iteration prints
the `Adding image` line; a file whose `try` body raises is skipped with an
`Error processing` message and produces no page; otherwise one image page is
emitted with the layout of `layoutImage` and the 1-indexed label `idx + 1`. -/
def processImages (v : Variant) (idx total : ℕ) : List SrcImage → List Page × List LogMsg
  | [] => ([], [])
  | f :: fs =>
    let rest := processImages v (idx + 1) total fs
    match f.decoded with
    | some (w, h) =>
      if w = 0 ∨ h = 0 then
        (rest.1, LogMsg.addingImage (idx + 1) total f.name ::
          LogMsg.errorProcessing f.name :: rest.2)
      else
        (Page.image f.name (layoutImage v.geom w h) (v.mkLabel (idx + 1) total) :: rest.1,
          LogMsg.addingImage (idx + 1) total f.name :: rest.2)
    | none =>
      (rest.1, LogMsg.addingImage (idx + 1) total f.name ::
        LogMsg.errorProcessing f.name :: rest.2)

/-- Modelled from the spec's words for comparison with the loop above: the
page numbers a batch should print are the 1-indexed positions (offset by
`i`) of the files that decode; a skipped file contributes no number and
later files are not renumbered. -/
def specPageNums (i : ℕ) : List SrcImage → List ℕ
  | [] => []
  | f :: fs =>
    if decodesOk f then (i + 1) :: specPageNums (i + 1) fs
    else specPageNums (i + 1) fs

/-- Python truthiness of the `title` argument: `if title:` is false for
`None` and for the empty string. -/
def titleTruthy : Option String → Bool
  | none => false
  | some t => !(t == "")

/-- The title page of `create_mobile_pdfs.py`: the title string is passed to
a single `drawCentredString` call (it is not split on newlines), followed by
a hard-coded date and the author line. -/
def titleOpsPlain (g : PageGeometry) (title : String) : List DrawOp :=
  [ DrawOp.centred (g.pageWidth / 2) (g.pageHeight * (6 / 10)) "Helvetica-Bold" 24 title,
    DrawOp.centred (g.pageWidth / 2) (g.pageHeight * (5 / 10)) "Helvetica" 14 "June 15, 2025",
    DrawOp.centred (g.pageWidth / 2) (g.pageHeight * (45 / 100)) "Helvetica" 12
      "By: Daniel Rosehill" ]

/-- Python `s.split('\n')` over the underlying character list: the
`\n`-delimited segments, with `[""]` for the empty string and an empty
final segment after a trailing separator. -/
def splitNl : List Char → List (List Char)
  | [] => [[]]
  | c :: cs =>
    match splitNl cs with
    | [] => [[]]
    | line :: rest =>
      if c = '\n' then [] :: line :: rest else (c :: line) :: rest

/-- `title.split('\n')` as strings. -/
def titleLines (t : String) : List String :=
  (splitNl t.data).map (fun cs => String.mk cs)

/-- The viewing-instructions block of the optimized title page. -/
def viewingInstructions : List String :=
  [ "For best viewing experience:",
    "• Set your PDF reader to 'Fit to Width'",
    "• Use portrait orientation",
    "• Enable 'Continuous Scrolling' if available" ]

/-- The title page of `create_mobile_optimized_pdfs.py`: a background
rectangle, then one centred line per `\n`-delimited title segment at
`0.65 * page_height - 24 * i`, the current date at `0.5 * page_height`,
the author at `0.45`, a note at `0.4`, and the instructions block at
`0.3 * page_height - 12 * i`.  `dateStr` stands for
`datetime.now().strftime("%B %d, %Y")`. -/
def titleOpsOptimized (g : PageGeometry) (title dateStr author : String) : List DrawOp :=
  DrawOp.rect 0 0 g.pageWidth g.pageHeight ::
    (titleLines title).enum.map (fun p =>
      DrawOp.centred (g.pageWidth / 2) (g.pageHeight * (65 / 100) - (p.1 : ℚ) * 24)
        "Helvetica-Bold" 20 p.2) ++
    [ DrawOp.centred (g.pageWidth / 2) (g.pageHeight * (5 / 10)) "Helvetica" 12 dateStr,
      DrawOp.centred (g.pageWidth / 2) (g.pageHeight * (45 / 100)) "Helvetica" 10
        ("By: " ++ author),
      DrawOp.centred (g.pageWidth / 2) (g.pageHeight * (4 / 10)) "Helvetica-Oblique" 8
        "Mobile-Optimized Version" ] ++
    viewingInstructions.enum.map (fun p =>
      DrawOp.centred (g.pageWidth / 2) (g.pageHeight * (3 / 10) - (p.1 : ℚ) * 12)
        "Helvetica" 8 p.2)

/-- `if title:` — prepend one title page when the title is truthy. -/
def withTitlePage (mkOps : String → List DrawOp) (title : Option String)
    (body : List Page × List LogMsg) : List Page × List LogMsg :=
  match title with
  | some t => if t = "" then body else (Page.title (mkOps t) :: body.1, body.2)
  | none => body

/-- The outcome of one conversion call: the pages of the saved PDF (`none`
when no document was written), the Python return value, and the printed
messages in order. -/
structure ConvertResult where
  output : Option (List Page)
  ret : Bool
  logs : List LogMsg
deriving DecidableEq

/-- The page sequence a conversion composes for a given (already sorted)
image list and title: optional title page first, then the image pages. -/
def composePages (v : Variant) (mkOps : String → List DrawOp)
    (files : List SrcImage) (title : Option String) : List Page × List LogMsg :=
  withTitlePage mkOps title (processImages v 0 files.length files)

/-- The conversion procedure both scripts share (their bodies differ only in
the `Variant` and the title-page rendering): glob the directory, sort by
name, return `False` with a `No images found` message and no output when no
file matched; otherwise compose the pages and return the save outcome. -/
def convertCore (v : Variant) (mkOps : String → List DrawOp) (dir : List SrcImage)
    (title : Option String) (saveOk : Bool) : ConvertResult :=
  let image_files := sortedImages dir
  if image_files.isEmpty then
    { output := none, ret := false, logs := [LogMsg.noImagesFound] }
  else
    let body := composePages v mkOps image_files title
    if saveOk then
      { output := some body.1, ret := true, logs := body.2 ++ [LogMsg.pdfCreated] }
    else
      { output := none, ret := false, logs := body.2 ++ [LogMsg.errorSaving] }

/-- `create_pdf_from_images(image_folder, output_pdf, title)` of
`create_mobile_pdfs.py`.  `dir` is the directory listing; `saveOk` models
whether the final `c.save()` succeeds. -/
def create_pdf_from_images (dir : List SrcImage) (title : Option String)
    (saveOk : Bool) : ConvertResult :=
  convertCore plainVariant (titleOpsPlain plainGeom) dir title saveOk

/-- `create_mobile_optimized_pdf(image_folder, output_pdf, title, author)` of
`create_mobile_optimized_pdfs.py`.  `dateStr` models `datetime.now()`
formatting on the title page; `author` defaults to `"Daniel Rosehill"` at the
call sites. -/
def create_mobile_optimized_pdf (dir : List SrcImage) (title : Option String)
    (author dateStr : String) (saveOk : Bool) : ConvertResult :=
  convertCore optimizedVariant
    (fun t => titleOpsOptimized optimizedGeom t dateStr author) dir title saveOk

/-- The two configured guides of either script's `main`. -/
inductive Guide where
  | wireless
  | hfc
deriving DecidableEq

/-- The file-system state `main` observes: for each guide's source
directory, `none` when the directory is absent, otherwise its listing. -/
structure FsState where
  wirelessDir : Option (List SrcImage)
  hfcDir : Option (List SrcImage)

/-- Observable events of a `main` run: the per-guide `Creating PDF` banner,
a completed conversion call with its result, or the optimized script's
`Error: Watermarked directory not found` message. -/
inductive MainEvent where
  | creating (g : Guide)
  | converted (g : Guide) (r : ConvertResult)
  | dirNotFound (g : Guide)
deriving DecidableEq

/-- Whether an event reports a missing directory. -/
def MainEvent.isDirNotFound : MainEvent → Bool
  | .dirNotFound _ => true
  | _ => false

/-- The title `main` passes for the wireless guide. -/
def wirelessTitle : String := "Emergency Wireless Notifications\nConfiguration Guide"

/-- The title `main` passes for the HFC guide. -/
def hfcTitle : String := "Home Front Command App\nConfiguration Guide"

/-- `main` of `create_mobile_pdfs.py`: each guide whose directory exists is
converted; an absent directory is skipped silently (there is no `else`
branch), and the run continues with the next guide. -/
def mainPlain (fs : FsState) (saveOk : Bool) : List MainEvent :=
  (match fs.wirelessDir with
   | some files =>
     [MainEvent.creating Guide.wireless,
      MainEvent.converted Guide.wireless
        (create_pdf_from_images files (some wirelessTitle) saveOk)]
   | none => []) ++
  (match fs.hfcDir with
   | some files =>
     [MainEvent.creating Guide.hfc,
      MainEvent.converted Guide.hfc
        (create_pdf_from_images files (some hfcTitle) saveOk)]
   | none => [])

/-- `main` of `create_mobile_optimized_pdfs.py`: like the plain `main`, but
an absent directory is reported with an `Error: Watermarked directory not
found` message before the run continues with the next guide. -/
def mainOptimized (fs : FsState) (dateStr : String) (saveOk : Bool) : List MainEvent :=
  (match fs.wirelessDir with
   | some files =>
     [MainEvent.creating Guide.wireless,
      MainEvent.converted Guide.wireless
        (create_mobile_optimized_pdf files (some wirelessTitle) "Daniel Rosehill"
          dateStr saveOk)]
   | none => [MainEvent.dirNotFound Guide.wireless]) ++
  (match fs.hfcDir with
   | some files =>
     [MainEvent.creating Guide.hfc,
      MainEvent.converted Guide.hfc
        (create_mobile_optimized_pdf files (some hfcTitle) "Daniel Rosehill"
          dateStr saveOk)]
   | none => [MainEvent.dirNotFound Guide.hfc])

/-- Example directory entry used to instantiate hypothesised theorems. -/
def exImage : SrcImage := ⟨"shot.png", some (100, 200)⟩

/-- The page the plain loop emits for `exImage` alone. -/
def exPage : Page := Page.image "shot.png" (layoutImage plainGeom 100 200) (PageLabel.plain 1)

/-- A directory listed in scrambled order, for the ordering claim. -/
def exDirScrambled : List SrcImage :=
  [⟨"10.png", some (8, 8)⟩, ⟨"02.png", some (8, 8)⟩, ⟨"01.png", some (8, 8)⟩]

/-- A sorted batch whose middle image fails to decode. -/
def exDirSkip : List SrcImage :=
  [⟨"a.png", some (4, 4)⟩, ⟨"b.png", none⟩, ⟨"c.png", some (4, 4)⟩]

/-- A directory with a single decodable image. -/
def exDirOne : List SrcImage := [⟨"a.png", some (5, 5)⟩]

/-- A directory whose only matching image fails to decode. -/
def exDirFail : List SrcImage := [⟨"x.png", none⟩]

/-- A directory with no file matching any image extension. -/
def exDirNoMatch : List SrcImage := [⟨"notes.txt", some (9, 9)⟩]

/-! ### Supporting lemmas about the image loop -/

/-- Every page the image loop emits comes from a file of the batch that
decoded to a nonzero pixel size, and is an image page laid out by
`layoutImage` with a label produced by the variant. -/
theorem mem_processImages {v : Variant} {i t : ℕ} {fs : List SrcImage} {p : Page}
    (hp : p ∈ (processImages v i t fs).1) :
    ∃ f ∈ fs, ∃ w h : ℕ, f.decoded = some (w, h) ∧ w ≠ 0 ∧ h ≠ 0 ∧
      ∃ k : ℕ, p = Page.image f.name (layoutImage v.geom w h) (v.mkLabel k t) := by
  induction fs generalizing i with
  | nil => simp [processImages] at hp
  | cons f fs ih =>
    rw [processImages] at hp
    rcases hd : f.decoded with _ | ⟨w, h⟩
    · rw [hd] at hp
      obtain ⟨g, hg, rest⟩ := ih hp
      exact ⟨g, List.mem_cons_of_mem _ hg, rest⟩
    · rw [hd] at hp
      by_cases hz : w = 0 ∨ h = 0
      · simp only [if_pos hz] at hp
        obtain ⟨g, hg, rest⟩ := ih hp
        exact ⟨g, List.mem_cons_of_mem _ hg, rest⟩
      · simp only [if_neg hz] at hp
        push_neg at hz
        rcases List.mem_cons.mp hp with hp | hp
        · exact ⟨f, List.mem_cons_self _ _, w, h, hd, hz.1, hz.2, i + 1, hp⟩
        · obtain ⟨g, hg, rest⟩ := ih hp
          exact ⟨g, List.mem_cons_of_mem _ hg, rest⟩

/-- The loop emits one page per file whose `try` body completes. -/
theorem length_processImages (v : Variant) (t : ℕ) (fs : List SrcImage) (i : ℕ) :
    (processImages v i t fs).1.length = fs.countP decodesOk := by
  induction fs generalizing i with
  | nil => rfl
  | cons f fs ih =>
    rw [processImages, List.countP_cons]
    rcases hd : f.decoded with _ | ⟨w, h⟩
    · simp [decodesOk, hd, ih]
    · by_cases hz : w = 0 ∨ h = 0
      · rcases hz with hz | hz <;> simp [decodesOk, hd, hz, ih]
      · push_neg at hz
        simp [decodesOk, hd, hz.1, hz.2, if_neg, ih]

/-- The emitted image pages carry the names of the decodable files, in
batch order. -/
theorem map_imageName_processImages (v : Variant) (t : ℕ) (fs : List SrcImage) (i : ℕ) :
    (processImages v i t fs).1.map Page.imageName = (fs.filter decodesOk).map SrcImage.name := by
  induction fs generalizing i with
  | nil => rfl
  | cons f fs ih =>
    rw [processImages, List.filter_cons]
    rcases hd : f.decoded with _ | ⟨w, h⟩
    · have hf : decodesOk f = false := by simp [decodesOk, hd]
      simp [hd, hf, ih]
    · by_cases hz : w = 0 ∨ h = 0
      · have hf : decodesOk f = false := by
          rcases hz with hz | hz <;> simp [decodesOk, hd, hz]
        simp [hd, if_pos hz, hf, ih]
      · have hf : decodesOk f = true := by
          push_neg at hz
          simp [decodesOk, hd, hz.1, hz.2]
        simp [hd, if_neg hz, hf, ih, Page.imageName]

/-- The page numbers the loop prints, in order, for any variant whose label
prints its first argument. -/
theorem map_labelNum_processImages (v : Variant)
    (hv : ∀ n total, (v.mkLabel n total).num = n) (t : ℕ) (fs : List SrcImage) (i : ℕ) :
    (processImages v i t fs).1.map Page.labelNum = specPageNums i fs := by
  induction fs generalizing i with
  | nil => rfl
  | cons f fs ih =>
    rw [processImages, specPageNums]
    rcases hd : f.decoded with _ | ⟨w, h⟩
    · have hf : decodesOk f = false := by simp [decodesOk, hd]
      simp [hd, hf, ih]
    · by_cases hz : w = 0 ∨ h = 0
      · have hf : decodesOk f = false := by
          rcases hz with hz | hz <;> simp [decodesOk, hd, hz]
        simp [hd, if_pos hz, hf, ih]
      · have hf : decodesOk f = true := by
          push_neg at hz
          simp [decodesOk, hd, hz.1, hz.2]
        simp [hd, if_neg hz, hf, ih, Page.labelNum, hv]

/-- The per-image error messages of a batch count the files whose `try`
body raises. -/
theorem countP_errors_processImages (v : Variant) (t : ℕ) (fs : List SrcImage) (i : ℕ) :
    (processImages v i t fs).2.countP LogMsg.isErrorMsg =
      fs.countP (fun f => !decodesOk f) := by
  induction fs generalizing i with
  | nil => rfl
  | cons f fs ih =>
    rw [processImages, List.countP_cons]
    rcases hd : f.decoded with _ | ⟨w, h⟩
    · have hf : decodesOk f = false := by simp [decodesOk, hd]
      simp [hd, hf, ih, List.countP_cons, LogMsg.isErrorMsg]
    · by_cases hz : w = 0 ∨ h = 0
      · have hf : decodesOk f = false := by
          rcases hz with hz | hz <;> simp [decodesOk, hd, hz]
        simp [hd, if_pos hz, hf, ih, List.countP_cons, LogMsg.isErrorMsg]
      · have hf : decodesOk f = true := by
          push_neg at hz
          simp [decodesOk, hd, hz.1, hz.2]
        simp [hd, if_neg hz, hf, ih, List.countP_cons, LogMsg.isErrorMsg]

/-- Every page the loop emits is an image page. -/
theorem processImages_all_isImage {v : Variant} {i t : ℕ} {fs : List SrcImage} :
    ∀ p ∈ (processImages v i t fs).1, p.isImage = true := by
  intro p hp
  obtain ⟨f, _, w, h, _, _, _, k, rfl⟩ := mem_processImages hp
  rfl

/-! ### C1 and C2: the scale-and-place computation -/

/-- **C1**: for every image with positive pixel width and height the scale
factor is `min(available_width / image_width, available_height / image_height)`,
on the limiting axis the placed dimension equals the available dimension,
and hence the scaled image touches the available area's edge (page edge
minus margin) on at least one axis. -/
theorem scaleFactor_is_min_and_touches_edge (g : PageGeometry) (w h : ℕ)
    (hw : 0 < w) (hh : 0 < h) :
    (layoutImage g w h).scale = min (g.maxWidth / w) (g.maxHeight / h) ∧
    (g.maxWidth / w ≤ g.maxHeight / h → (layoutImage g w h).newWidth = g.maxWidth) ∧
    (g.maxHeight / h ≤ g.maxWidth / w → (layoutImage g w h).newHeight = g.maxHeight) ∧
    ((layoutImage g w h).newWidth = g.maxWidth ∨
      (layoutImage g w h).newHeight = g.maxHeight) := by
  have hw' : (w : ℚ) ≠ 0 := Nat.cast_ne_zero.mpr hw.ne'
  have hh' : (h : ℚ) ≠ 0 := Nat.cast_ne_zero.mpr hh.ne'
  have hW : (g.maxWidth / w ≤ g.maxHeight / h → (layoutImage g w h).newWidth = g.maxWidth) := by
    intro hle
    simp only [layoutImage, min_eq_left hle]
    rw [mul_comm, div_mul_cancel₀ _ hw']
  have hH : (g.maxHeight / h ≤ g.maxWidth / w → (layoutImage g w h).newHeight = g.maxHeight) := by
    intro hle
    simp only [layoutImage, min_eq_right hle]
    rw [mul_comm, div_mul_cancel₀ _ hh']
  refine ⟨rfl, hW, hH, ?_⟩
  rcases le_total (g.maxWidth / w) (g.maxHeight / h) with hle | hle
  · exact Or.inl (hW hle)
  · exact Or.inr (hH hle)

/-- Witness for C1 at a concrete 100 × 200 image on the plain geometry. -/
theorem scaleFactor_is_min_and_touches_edge_witness :
    (0 < 100 ∧ 0 < 200) ∧
    ((layoutImage plainGeom 100 200).scale =
        min (plainGeom.maxWidth / 100) (plainGeom.maxHeight / 200) ∧
      (plainGeom.maxWidth / 100 ≤ plainGeom.maxHeight / 200 →
        (layoutImage plainGeom 100 200).newWidth = plainGeom.maxWidth) ∧
      (plainGeom.maxHeight / 200 ≤ plainGeom.maxWidth / 100 →
        (layoutImage plainGeom 100 200).newHeight = plainGeom.maxHeight) ∧
      ((layoutImage plainGeom 100 200).newWidth = plainGeom.maxWidth ∨
        (layoutImage plainGeom 100 200).newHeight = plainGeom.maxHeight)) :=
  ⟨⟨by decide, by decide⟩,
    scaleFactor_is_min_and_touches_edge plainGeom 100 200 (by decide) (by decide)⟩

/-- **C2**: every image page the loop emits is centered: its x/y position is
half the difference of page and scaled dimension, the left and right (and
top and bottom) gaps coincide, and its scaled dimensions are the source
image's pixel dimensions times the computed scale factor. -/
theorem image_pages_centered {v : Variant} {i t : ℕ} {fs : List SrcImage} {p : Page}
    {pl : Placement} (hp : p ∈ (processImages v i t fs).1)
    (hpl : p.placementOf = some pl) :
    pl.xPos = (v.geom.pageWidth - pl.newWidth) / 2 ∧
    pl.yPos = (v.geom.pageHeight - pl.newHeight) / 2 ∧
    pl.xPos + pl.newWidth + pl.xPos = v.geom.pageWidth ∧
    pl.yPos + pl.newHeight + pl.yPos = v.geom.pageHeight ∧
    ∃ f ∈ fs, ∃ w h : ℕ, f.decoded = some (w, h) ∧
      pl = layoutImage v.geom w h ∧
      pl.newWidth = w * pl.scale ∧ pl.newHeight = h * pl.scale := by
  obtain ⟨f, hf, w, h, hd, hw, hh, k, hpk⟩ := mem_processImages hp
  subst hpk
  simp only [Page.placementOf, Option.some.injEq] at hpl
  subst hpl
  refine ⟨?_, ?_, ?_, ?_, f, hf, w, h, hd, rfl, ?_, ?_⟩ <;>
    simp only [layoutImage] <;> ring

/-- Witness for C2: the page produced for a single 100 × 200 image. -/
theorem image_pages_centered_witness :
    exPage ∈ (processImages plainVariant 0 1 [exImage]).1 ∧
    Page.placementOf exPage = some (layoutImage plainGeom 100 200) ∧
    ((layoutImage plainGeom 100 200).xPos =
        (plainVariant.geom.pageWidth - (layoutImage plainGeom 100 200).newWidth) / 2 ∧
      (layoutImage plainGeom 100 200).yPos =
        (plainVariant.geom.pageHeight - (layoutImage plainGeom 100 200).newHeight) / 2 ∧
      (layoutImage plainGeom 100 200).xPos + (layoutImage plainGeom 100 200).newWidth +
          (layoutImage plainGeom 100 200).xPos = plainVariant.geom.pageWidth ∧
      (layoutImage plainGeom 100 200).yPos + (layoutImage plainGeom 100 200).newHeight +
          (layoutImage plainGeom 100 200).yPos = plainVariant.geom.pageHeight ∧
      ∃ f ∈ [exImage], ∃ w h : ℕ, f.decoded = some (w, h) ∧
        layoutImage plainGeom 100 200 = layoutImage plainVariant.geom w h ∧
        (layoutImage plainGeom 100 200).newWidth =
          w * (layoutImage plainGeom 100 200).scale ∧
        (layoutImage plainGeom 100 200).newHeight =
          h * (layoutImage plainGeom 100 200).scale) :=
  ⟨show exPage ∈ (processImages plainVariant 0 1 [exImage]).1 from List.Mem.head _, rfl,
    image_pages_centered
      (show exPage ∈ (processImages plainVariant 0 1 [exImage]).1 from List.Mem.head _)
      (show Page.placementOf exPage = some (layoutImage plainGeom 100 200) from rfl)⟩

/-! ### Supporting lemmas about page composition and saving -/

/-- Prepending the title page does not change the log list. -/
theorem withTitlePage_snd (mkOps : String → List DrawOp) (title : Option String)
    (body : List Page × List LogMsg) : (withTitlePage mkOps title body).2 = body.2 := by
  cases title with
  | none => rfl
  | some t => by_cases ht : t = "" <;> simp [withTitlePage, ht]

/-- Counts and shape of the composed page sequence: one image page per
decodable file; one title page exactly when the title is truthy, and then
it is the first page. -/
theorem composePages_counts (v : Variant) (mkOps : String → List DrawOp)
    (files : List SrcImage) (title : Option String) :
    ((composePages v mkOps files title).1.countP Page.isImage = files.countP decodesOk) ∧
    ((composePages v mkOps files title).1.countP Page.isTitle =
      if titleTruthy title then 1 else 0) ∧
    (titleTruthy title = true → ∃ tt, title = some tt ∧
      (composePages v mkOps files title).1 =
        Page.title (mkOps tt) :: (processImages v 0 files.length files).1) ∧
    (titleTruthy title = false →
      (composePages v mkOps files title).1 = (processImages v 0 files.length files).1) := by
  have himg : (processImages v 0 files.length files).1.countP Page.isImage =
      files.countP decodesOk := by
    rw [List.countP_eq_length.mpr processImages_all_isImage]
    exact length_processImages v files.length files 0
  have htit : (processImages v 0 files.length files).1.countP Page.isTitle = 0 := by
    rw [List.countP_eq_zero]
    intro p hp
    obtain ⟨f, _, w, h, _, _, _, k, rfl⟩ := mem_processImages hp
    simp [Page.isTitle]
  cases title with
  | none =>
    refine ⟨himg, ?_, ?_, fun _ => rfl⟩
    · simpa [titleTruthy] using htit
    · intro hfalse; simp [titleTruthy] at hfalse
  | some t =>
    by_cases ht : t = ""
    · subst ht
      refine ⟨himg, ?_, ?_, fun _ => ?_⟩
      · simpa [titleTruthy] using htit
      · intro hfalse; simp [titleTruthy] at hfalse
      · simp [composePages, withTitlePage]
    · have htr : titleTruthy (some t) = true := by simp [titleTruthy, ht]
      have hsh : (composePages v mkOps files (some t)).1 =
          Page.title (mkOps t) :: (processImages v 0 files.length files).1 := by
        simp [composePages, withTitlePage, ht]
      refine ⟨?_, ?_, fun _ => ⟨t, rfl, hsh⟩, ?_⟩
      · rw [hsh, List.countP_cons]
        simp [Page.isImage, himg]
      · rw [hsh, List.countP_cons]
        simp [Page.isTitle, htit, htr]
      · intro hfalse; rw [htr] at hfalse; cases hfalse

/-- A successful run on a directory with at least one match saves the
composed pages. -/
theorem convertCore_saved (v : Variant) (mkOps : String → List DrawOp)
    (dir : List SrcImage) (title : Option String)
    (hne : (sortedImages dir).isEmpty = false) :
    convertCore v mkOps dir title true =
      { output := some (composePages v mkOps (sortedImages dir) title).1,
        ret := true,
        logs := (composePages v mkOps (sortedImages dir) title).2 ++
          [LogMsg.pdfCreated] } := by
  simp [convertCore, hne]

/-- A run that matches nothing reports `No images found` and saves nothing. -/
theorem convertCore_noImages (v : Variant) (mkOps : String → List DrawOp)
    (dir : List SrcImage) (title : Option String) (saveOk : Bool)
    (he : (sortedImages dir).isEmpty = true) :
    convertCore v mkOps dir title saveOk =
      { output := none, ret := false, logs := [LogMsg.noImagesFound] } := by
  simp [convertCore, he]

/-- The return value of a conversion: matched something, and saved. -/
theorem convertCore_ret (v : Variant) (mkOps : String → List DrawOp)
    (dir : List SrcImage) (title : Option String) (saveOk : Bool) :
    (convertCore v mkOps dir title saveOk).ret =
      (!(sortedImages dir).isEmpty && saveOk) := by
  by_cases he : (sortedImages dir).isEmpty <;> cases saveOk <;>
    simp [convertCore, he]

/-- Sorting matches nothing new: the sorted match list is empty exactly when
the glob result is. -/
theorem sortedImages_eq_nil_iff (dir : List SrcImage) :
    sortedImages dir = [] ↔ collectImages dir = [] := by
  have hlen : (sortedImages dir).length = (collectImages dir).length :=
    (List.perm_insertionSort nameLE (collectImages dir)).length_eq
  constructor
  · intro he
    rw [← List.length_eq_zero, ← hlen, he]
    rfl
  · intro he
    rw [← List.length_eq_zero, hlen, he]
    rfl

/-- Every file of the sorted match list comes from the directory listing. -/
theorem mem_sortedImages {dir : List SrcImage} {f : SrcImage}
    (hf : f ∈ sortedImages dir) : f ∈ dir := by
  have h1 : f ∈ collectImages dir :=
    ((List.perm_insertionSort nameLE (collectImages dir)).mem_iff).mp hf
  obtain ⟨ext, _, hmem⟩ := List.mem_flatMap.mp h1
  exact (List.mem_filter.mp hmem).1

/-! ### C4: lexicographic page order -/

/-- **C4**: image pages appear in lexicographic filename order.  The batch
the loop receives is the concatenated per-extension glob result sorted by
`lexLe` on names — pairwise ordered and a permutation of the glob result,
whatever order the directory listing had — so the emitted page names are
pairwise ordered too, and for a directory holding `10.png, 02.png, 01.png`
(listed in that order) the page order is `01, 02, 10`. -/
theorem pages_in_lexicographic_name_order :
    ((processImages plainVariant 0 3 (sortedImages exDirScrambled)).1.map Page.imageName =
      ["01.png", "02.png", "10.png"]) ∧
    (∀ dir : List SrcImage, (sortedImages dir).Pairwise nameLE ∧
      (sortedImages dir).Perm (collectImages dir)) ∧
    (∀ (v : Variant) (dir : List SrcImage) (t : ℕ),
      ((processImages v 0 t (sortedImages dir)).1.map Page.imageName).Pairwise
        (fun a b => lexLe a.data b.data = true)) := by
  refine ⟨by decide,
    fun dir => ⟨List.sorted_insertionSort nameLE _, List.perm_insertionSort nameLE _⟩, ?_⟩
  intro v dir t
  rw [map_imageName_processImages]
  have h1 : (sortedImages dir).Pairwise nameLE := List.sorted_insertionSort nameLE _
  have h2 : ((sortedImages dir).filter decodesOk).Pairwise nameLE := h1.filter decodesOk
  exact List.pairwise_map.mpr (h2.imp fun h => h)

/-! ### C6: page numbers are positions in the batch -/

/-- **C6**: the number printed on every image page is 1-indexed and equals
the image's position in the sorted batch (title page not counted); when an
image is skipped its number is omitted and later pages keep their original
position-in-batch numbers.  Stated for any variant whose label prints its
first argument (both scripts do), and instantiated on a batch whose middle
image fails: the printed numbers are `[1, 3]`. -/
theorem page_numbers_are_batch_positions (v : Variant)
    (hv : ∀ n total, (v.mkLabel n total).num = n) (t : ℕ) (fs : List SrcImage) (i : ℕ) :
    (processImages v i t fs).1.map Page.labelNum = specPageNums i fs ∧
    (processImages plainVariant 0 3 exDirSkip).1.map Page.labelNum = [1, 3] :=
  ⟨map_labelNum_processImages v hv t fs i, by decide⟩

/-- Witness for C6 at the plain variant on the skip example. -/
theorem page_numbers_are_batch_positions_witness :
    (∀ n total, ((plainVariant.mkLabel n total).num) = n) ∧
    ((processImages plainVariant 0 3 exDirSkip).1.map Page.labelNum =
        specPageNums 0 exDirSkip ∧
      (processImages plainVariant 0 3 exDirSkip).1.map Page.labelNum = [1, 3]) :=
  ⟨fun _ _ => rfl,
    page_numbers_are_batch_positions plainVariant (fun _ _ => rfl) 3 exDirSkip 0⟩

/-! ### C3: page counts -/

/-- C3 counterexample: `create_pdf_from_images` called on a one-image
directory with the empty string supplied as the title argument saves a PDF
with the single image page and **no** title page (`if title:` is false for
`""`), contradicting "one additional title page iff a title argument was
supplied". -/
theorem title_supplied_but_no_title_page :
    (create_pdf_from_images exDirOne (some "") true).output =
      some [Page.image "a.png" (layoutImage plainGeom 5 5) (PageLabel.plain 1)] ∧
    ((create_pdf_from_images exDirOne (some "") true).output.getD []).countP
      Page.isTitle = 0 :=
  ⟨rfl, rfl⟩

/-- **C3 (amended)**: for every directory whose matched images all decode
(to nonzero sizes), both conversions save a PDF with exactly N image pages
(N the number of matched files), plus exactly one additional title page —
emitted first — if and only if a *non-empty* title string was supplied
(Python's `if title:` treats a supplied empty string like `None`). -/
theorem page_count_is_image_count (dir : List SrcImage) (title : Option String)
    (author dateStr : String)
    (hdec : ∀ f ∈ sortedImages dir, decodesOk f = true)
    (hne : (sortedImages dir).isEmpty = false) :
    ∃ pagesP pagesO : List Page,
      (create_pdf_from_images dir title true).output = some pagesP ∧
      (create_mobile_optimized_pdf dir title author dateStr true).output = some pagesO ∧
      pagesP.countP Page.isImage = (sortedImages dir).length ∧
      pagesO.countP Page.isImage = (sortedImages dir).length ∧
      pagesP.countP Page.isTitle = (if titleTruthy title then 1 else 0) ∧
      pagesO.countP Page.isTitle = (if titleTruthy title then 1 else 0) ∧
      (titleTruthy title = true →
        pagesP.head?.map Page.isTitle = some true ∧
        pagesO.head?.map Page.isTitle = some true) := by
  have hN : (sortedImages dir).countP decodesOk = (sortedImages dir).length :=
    List.countP_eq_length.mpr hdec
  have hP := convertCore_saved plainVariant (titleOpsPlain plainGeom) dir title hne
  have hO := convertCore_saved optimizedVariant
    (fun t => titleOpsOptimized optimizedGeom t dateStr author) dir title hne
  have hcp := composePages_counts plainVariant (titleOpsPlain plainGeom)
    (sortedImages dir) title
  have hco := composePages_counts optimizedVariant
    (fun t => titleOpsOptimized optimizedGeom t dateStr author) (sortedImages dir) title
  simp only [create_pdf_from_images, create_mobile_optimized_pdf]
  refine ⟨(composePages plainVariant (titleOpsPlain plainGeom) (sortedImages dir) title).1,
    (composePages optimizedVariant
      (fun t => titleOpsOptimized optimizedGeom t dateStr author) (sortedImages dir) title).1,
    ?_, ?_, ?_, ?_, ?_, ?_, ?_⟩
  · rw [hP]
  · rw [hO]
  · rw [hcp.1, hN]
  · rw [hco.1, hN]
  · exact hcp.2.1
  · exact hco.2.1
  · intro htr
    obtain ⟨tt, _, hshP⟩ := hcp.2.2.1 htr
    obtain ⟨tt2, _, hshO⟩ := hco.2.2.1 htr
    rw [hshP, hshO]
    exact ⟨rfl, rfl⟩

/-- Witness for the amended C3 on a one-image directory with a nonempty
title. -/
theorem page_count_is_image_count_witness :
    (∀ f ∈ sortedImages exDirOne, decodesOk f = true) ∧
    (sortedImages exDirOne).isEmpty = false ∧
    (∃ pagesP pagesO : List Page,
      (create_pdf_from_images exDirOne (some "Guide") true).output = some pagesP ∧
      (create_mobile_optimized_pdf exDirOne (some "Guide") "Daniel Rosehill"
        "June 15, 2025" true).output = some pagesO ∧
      pagesP.countP Page.isImage = (sortedImages exDirOne).length ∧
      pagesO.countP Page.isImage = (sortedImages exDirOne).length ∧
      pagesP.countP Page.isTitle = (if titleTruthy (some "Guide") then 1 else 0) ∧
      pagesO.countP Page.isTitle = (if titleTruthy (some "Guide") then 1 else 0) ∧
      (titleTruthy (some "Guide") = true →
        pagesP.head?.map Page.isTitle = some true ∧
        pagesO.head?.map Page.isTitle = some true)) :=
  ⟨by decide, by decide,
    page_count_is_image_count exDirOne (some "Guide") "Daniel Rosehill" "June 15, 2025"
      (by decide) (by decide)⟩

/-! ### C5: a corrupt image is skipped, the run completes -/

/-- **C5**: for every directory whose sorted match list has exactly one
image whose per-image processing fails and exactly two that decode, both
conversions save a PDF with exactly two image pages, log exactly one
per-image error message, and return `True` to the caller (the embedded
functions are total: the per-image handler absorbs the failure). -/
theorem corrupt_image_skipped_run_completes (dir : List SrcImage)
    (title : Option String) (author dateStr : String)
    (h1 : (sortedImages dir).countP (fun f => !decodesOk f) = 1)
    (h2 : (sortedImages dir).countP decodesOk = 2) :
    ∃ pagesP pagesO : List Page,
      (create_pdf_from_images dir title true).output = some pagesP ∧
      (create_mobile_optimized_pdf dir title author dateStr true).output = some pagesO ∧
      pagesP.countP Page.isImage = 2 ∧
      pagesO.countP Page.isImage = 2 ∧
      (create_pdf_from_images dir title true).ret = true ∧
      (create_mobile_optimized_pdf dir title author dateStr true).ret = true ∧
      (create_pdf_from_images dir title true).logs.countP LogMsg.isErrorMsg = 1 ∧
      (create_mobile_optimized_pdf dir title author dateStr true).logs.countP
        LogMsg.isErrorMsg = 1 := by
  have hne : (sortedImages dir).isEmpty = false := by
    cases hs : sortedImages dir with
    | nil => rw [hs] at h2; simp at h2
    | cons a l => rfl
  have hP := convertCore_saved plainVariant (titleOpsPlain plainGeom) dir title hne
  have hO := convertCore_saved optimizedVariant
    (fun t => titleOpsOptimized optimizedGeom t dateStr author) dir title hne
  have hcp := composePages_counts plainVariant (titleOpsPlain plainGeom)
    (sortedImages dir) title
  have hco := composePages_counts optimizedVariant
    (fun t => titleOpsOptimized optimizedGeom t dateStr author) (sortedImages dir) title
  have herrP : (composePages plainVariant (titleOpsPlain plainGeom)
      (sortedImages dir) title).2.countP LogMsg.isErrorMsg = 1 := by
    rw [composePages, withTitlePage_snd, countP_errors_processImages, h1]
  have herrO : (composePages optimizedVariant
      (fun t => titleOpsOptimized optimizedGeom t dateStr author)
      (sortedImages dir) title).2.countP LogMsg.isErrorMsg = 1 := by
    rw [composePages, withTitlePage_snd, countP_errors_processImages, h1]
  simp only [create_pdf_from_images, create_mobile_optimized_pdf]
  refine ⟨(composePages plainVariant (titleOpsPlain plainGeom) (sortedImages dir) title).1,
    (composePages optimizedVariant
      (fun t => titleOpsOptimized optimizedGeom t dateStr author) (sortedImages dir) title).1,
    ?_, ?_, ?_, ?_, ?_, ?_, ?_, ?_⟩
  · rw [hP]
  · rw [hO]
  · rw [hcp.1, h2]
  · rw [hco.1, h2]
  · rw [convertCore_ret, hne]; rfl
  · rw [convertCore_ret, hne]; rfl
  · rw [hP]
    show ((composePages plainVariant (titleOpsPlain plainGeom) (sortedImages dir) title).2 ++
      [LogMsg.pdfCreated]).countP LogMsg.isErrorMsg = 1
    rw [List.countP_append, herrP]
    rfl
  · rw [hO]
    show ((composePages optimizedVariant
        (fun t => titleOpsOptimized optimizedGeom t dateStr author)
        (sortedImages dir) title).2 ++ [LogMsg.pdfCreated]).countP LogMsg.isErrorMsg = 1
    rw [List.countP_append, herrO]
    rfl

/-- Witness for C5 on the three-file batch whose middle image fails. -/
theorem corrupt_image_skipped_witness :
    (sortedImages exDirSkip).countP (fun f => !decodesOk f) = 1 ∧
    (sortedImages exDirSkip).countP decodesOk = 2 ∧
    (∃ pagesP pagesO : List Page,
      (create_pdf_from_images exDirSkip none true).output = some pagesP ∧
      (create_mobile_optimized_pdf exDirSkip none "Daniel Rosehill" "June 15, 2025"
        true).output = some pagesO ∧
      pagesP.countP Page.isImage = 2 ∧
      pagesO.countP Page.isImage = 2 ∧
      (create_pdf_from_images exDirSkip none true).ret = true ∧
      (create_mobile_optimized_pdf exDirSkip none "Daniel Rosehill" "June 15, 2025"
        true).ret = true ∧
      (create_pdf_from_images exDirSkip none true).logs.countP LogMsg.isErrorMsg = 1 ∧
      (create_mobile_optimized_pdf exDirSkip none "Daniel Rosehill" "June 15, 2025"
        true).logs.countP LogMsg.isErrorMsg = 1) :=
  ⟨by decide, by decide,
    corrupt_image_skipped_run_completes exDirSkip none "Daniel Rosehill" "June 15, 2025"
      (by decide) (by decide)⟩

/-! ### C7: no matching images -/

/-- **C7**: for every directory with no file matching `.png`, `.jpg`,
`.jpeg` or `.gif`, both conversions report `No images found`, return
`False`, and write no output, for any title and save outcome. -/
theorem no_matching_images_reports_and_returns_false (dir : List SrcImage)
    (title : Option String) (saveOk : Bool) (author dateStr : String)
    (h : ∀ f ∈ dir, ∀ ext ∈ imageExts, globMatch ext f.name = false) :
    create_pdf_from_images dir title saveOk =
      { output := none, ret := false, logs := [LogMsg.noImagesFound] } ∧
    create_mobile_optimized_pdf dir title author dateStr saveOk =
      { output := none, ret := false, logs := [LogMsg.noImagesFound] } := by
  have hc : collectImages dir = [] := by
    rw [collectImages, List.flatMap_eq_nil_iff]
    intro ext hext
    rw [List.filter_eq_nil_iff]
    intro f hf
    simp [h f hf ext hext]
  have he : (sortedImages dir).isEmpty = true :=
    List.isEmpty_iff.mpr ((sortedImages_eq_nil_iff dir).mpr hc)
  exact ⟨convertCore_noImages _ _ _ _ _ he, convertCore_noImages _ _ _ _ _ he⟩

/-- Witness for C7 on a directory holding only `notes.txt`. -/
theorem no_matching_images_witness :
    (∀ f ∈ exDirNoMatch, ∀ ext ∈ imageExts, globMatch ext f.name = false) ∧
    (create_pdf_from_images exDirNoMatch (some "T") true =
      { output := none, ret := false, logs := [LogMsg.noImagesFound] } ∧
    create_mobile_optimized_pdf exDirNoMatch (some "T") "A" "D" true =
      { output := none, ret := false, logs := [LogMsg.noImagesFound] }) :=
  ⟨by decide,
    no_matching_images_reports_and_returns_false exDirNoMatch (some "T") true "A" "D"
      (by decide)⟩

/-! ### C10: the return value -/

/-- **C10**: each conversion returns `True` iff at least one file matched
and the final save succeeded; per-image decode failures never affect the
return value — a directory whose matches all fail to decode still saves a
PDF with zero image pages (plus a title page iff the title is truthy) and
returns `True`. -/
theorem return_true_iff_found_and_saved (dir : List SrcImage) (title : Option String)
    (saveOk : Bool) (author dateStr : String) :
    ((create_pdf_from_images dir title saveOk).ret = true ↔
      (collectImages dir ≠ [] ∧ saveOk = true)) ∧
    ((create_mobile_optimized_pdf dir title author dateStr saveOk).ret = true ↔
      (collectImages dir ≠ [] ∧ saveOk = true)) ∧
    ((∀ f ∈ dir, f.decoded = none) → collectImages dir ≠ [] → saveOk = true →
      ∃ pagesP pagesO : List Page,
        (create_pdf_from_images dir title saveOk).output = some pagesP ∧
        (create_mobile_optimized_pdf dir title author dateStr saveOk).output =
          some pagesO ∧
        pagesP.countP Page.isImage = 0 ∧ pagesO.countP Page.isImage = 0 ∧
        pagesP.countP Page.isTitle = (if titleTruthy title then 1 else 0) ∧
        pagesO.countP Page.isTitle = (if titleTruthy title then 1 else 0)) := by
  have hne_iff : sortedImages dir ≠ [] ↔ collectImages dir ≠ [] :=
    not_congr (sortedImages_eq_nil_iff dir)
  have hkey : ((!(sortedImages dir).isEmpty && saveOk) = true ↔
      (collectImages dir ≠ [] ∧ saveOk = true)) := by
    rw [Bool.and_eq_true, Bool.not_eq_true', List.isEmpty_eq_false, hne_iff]
  refine ⟨?_, ?_, ?_⟩
  · rw [create_pdf_from_images, convertCore_ret]; exact hkey
  · rw [create_mobile_optimized_pdf, convertCore_ret]; exact hkey
  · intro hfail hne hsave
    subst hsave
    have hne2 : (sortedImages dir).isEmpty = false := by
      rw [List.isEmpty_eq_false]
      exact hne_iff.mpr hne
    have hzero : (sortedImages dir).countP decodesOk = 0 := by
      rw [List.countP_eq_zero]
      intro f hf
      simp [decodesOk, hfail f (mem_sortedImages hf)]
    have hP := convertCore_saved plainVariant (titleOpsPlain plainGeom) dir title hne2
    have hO := convertCore_saved optimizedVariant
      (fun t => titleOpsOptimized optimizedGeom t dateStr author) dir title hne2
    have hcp := composePages_counts plainVariant (titleOpsPlain plainGeom)
      (sortedImages dir) title
    have hco := composePages_counts optimizedVariant
      (fun t => titleOpsOptimized optimizedGeom t dateStr author) (sortedImages dir) title
    simp only [create_pdf_from_images, create_mobile_optimized_pdf]
    refine ⟨(composePages plainVariant (titleOpsPlain plainGeom)
        (sortedImages dir) title).1,
      (composePages optimizedVariant
        (fun t => titleOpsOptimized optimizedGeom t dateStr author)
        (sortedImages dir) title).1, ?_, ?_, ?_, ?_, ?_, ?_⟩
    · rw [hP]
    · rw [hO]
    · rw [hcp.1, hzero]
    · rw [hco.1, hzero]
    · exact hcp.2.1
    · exact hco.2.1

/-- Witness for C10 on a directory whose single match fails to decode. -/
theorem return_true_iff_found_and_saved_witness :
    (∀ f ∈ exDirFail, f.decoded = none) ∧
    collectImages exDirFail ≠ [] ∧
    ((create_pdf_from_images exDirFail (some "T") true).ret = true ↔
      (collectImages exDirFail ≠ [] ∧ true = true)) ∧
    (∃ pagesP pagesO : List Page,
      (create_pdf_from_images exDirFail (some "T") true).output = some pagesP ∧
      (create_mobile_optimized_pdf exDirFail (some "T") "A" "D" true).output =
        some pagesO ∧
      pagesP.countP Page.isImage = 0 ∧ pagesO.countP Page.isImage = 0 ∧
      pagesP.countP Page.isTitle = (if titleTruthy (some "T") then 1 else 0) ∧
      pagesO.countP Page.isTitle = (if titleTruthy (some "T") then 1 else 0)) :=
  ⟨by decide, by decide,
    (return_true_iff_found_and_saved exDirFail (some "T") true "A" "D").1,
    (return_true_iff_found_and_saved exDirFail (some "T") true "A" "D").2.2
      (by decide) (by decide) rfl⟩

/-! ### C8: the title page -/

/-- C8 counterexample: in `create_mobile_pdfs.py` the two-line title
`"A\nB"` is passed whole to a single `drawCentredString` call: among the
title-page draw ops exactly one carries the full string `"A\nB"` and none
renders the segment `"A"` on its own, although the segments of the title
are `["A", "B"]` — the title is not rendered one line per `\n`-delimited
segment. -/
theorem plain_title_not_split_per_line :
    titleLines "A\nB" = ["A", "B"] ∧
    (titleOpsPlain plainGeom "A\nB").countP
      (fun op => match op with
        | DrawOp.centred _ _ _ _ s => s == "A\nB"
        | _ => false) = 1 ∧
    (titleOpsPlain plainGeom "A\nB").all
      (fun op => match op with
        | DrawOp.centred _ _ _ _ s => !(s == "A")
        | _ => true) = true :=
  ⟨by decide, rfl, rfl⟩

/-- **C8 (amended)**: whenever a non-empty title is supplied and some image
matched, both conversions emit exactly one title page, before all image
pages.  The mobile-optimized script renders the title one centred line per
`\n`-delimited segment, at `0.65 * page_height - 24 * i` (y strictly
decreasing per line), followed by the date at `0.5` and the author at
`0.45` of page height; the plain script instead draws the whole title
string in one centred call at `0.6` of page height, followed by its fixed
date and author lines. -/
theorem title_page_first_and_rendered (title : String) (ht : ¬title = "")
    (dir : List SrcImage) (hne : (sortedImages dir).isEmpty = false)
    (author dateStr : String) :
    (∃ pagesP : List Page,
      (create_pdf_from_images dir (some title) true).output = some pagesP ∧
      pagesP.countP Page.isTitle = 1 ∧
      pagesP.head? = some (Page.title (titleOpsPlain plainGeom title)) ∧
      pagesP.tail.countP Page.isImage = pagesP.tail.length) ∧
    (∃ pagesO : List Page,
      (create_mobile_optimized_pdf dir (some title) author dateStr true).output =
        some pagesO ∧
      pagesO.countP Page.isTitle = 1 ∧
      pagesO.head? =
        some (Page.title (titleOpsOptimized optimizedGeom title dateStr author)) ∧
      pagesO.tail.countP Page.isImage = pagesO.tail.length) ∧
    DrawOp.centred (plainGeom.pageWidth / 2) (plainGeom.pageHeight * (6 / 10))
      "Helvetica-Bold" 24 title ∈ titleOpsPlain plainGeom title ∧
    ((titleOpsOptimized optimizedGeom title dateStr author).drop 1).take
        (titleLines title).length =
      (titleLines title).enum.map (fun p =>
        DrawOp.centred (optimizedGeom.pageWidth / 2)
          (optimizedGeom.pageHeight * (65 / 100) - (p.1 : ℚ) * 24)
          "Helvetica-Bold" 20 p.2) ∧
    (∀ i j : ℕ, i < j →
      optimizedGeom.pageHeight * (65 / 100) - (j : ℚ) * 24 <
        optimizedGeom.pageHeight * (65 / 100) - (i : ℚ) * 24) ∧
    DrawOp.centred (optimizedGeom.pageWidth / 2) (optimizedGeom.pageHeight * (5 / 10))
      "Helvetica" 12 dateStr ∈ titleOpsOptimized optimizedGeom title dateStr author ∧
    DrawOp.centred (optimizedGeom.pageWidth / 2) (optimizedGeom.pageHeight * (45 / 100))
      "Helvetica" 10 ("By: " ++ author) ∈
      titleOpsOptimized optimizedGeom title dateStr author := by
  have htr : titleTruthy (some title) = true := by simp [titleTruthy, ht]
  have hcp := composePages_counts plainVariant (titleOpsPlain plainGeom)
    (sortedImages dir) (some title)
  have hco := composePages_counts optimizedVariant
    (fun t => titleOpsOptimized optimizedGeom t dateStr author)
    (sortedImages dir) (some title)
  have hP := convertCore_saved plainVariant (titleOpsPlain plainGeom) dir (some title) hne
  have hO := convertCore_saved optimizedVariant
    (fun t => titleOpsOptimized optimizedGeom t dateStr author) dir (some title) hne
  refine ⟨?_, ?_, ?_, ?_, ?_, ?_, ?_⟩
  · obtain ⟨tt, htt, hsh⟩ := hcp.2.2.1 htr
    obtain rfl : title = tt := by injection htt
    refine ⟨(composePages plainVariant (titleOpsPlain plainGeom)
        (sortedImages dir) (some title)).1, ?_, hcp.2.1.trans (by simp [htr]), ?_, ?_⟩
    · show (convertCore plainVariant (titleOpsPlain plainGeom) dir (some title)
          true).output = _
      rw [hP]
    · rw [hsh]; rfl
    · rw [hsh]
      exact List.countP_eq_length.mpr processImages_all_isImage
  · obtain ⟨tt, htt, hsh⟩ := hco.2.2.1 htr
    obtain rfl : title = tt := by injection htt
    refine ⟨(composePages optimizedVariant
        (fun t => titleOpsOptimized optimizedGeom t dateStr author)
        (sortedImages dir) (some title)).1, ?_, hco.2.1.trans (by simp [htr]), ?_, ?_⟩
    · show (convertCore optimizedVariant
          (fun t => titleOpsOptimized optimizedGeom t dateStr author) dir (some title)
          true).output = _
      rw [hO]
    · rw [hsh]; rfl
    · rw [hsh]
      exact List.countP_eq_length.mpr processImages_all_isImage
  · exact List.mem_cons_self _ _
  · simp only [titleOpsOptimized, List.drop_succ_cons, List.drop_zero]
    rw [List.append_assoc]
    exact List.take_left' (by rw [List.length_map, List.enum_length])
  · intro i j hij
    have : (i : ℚ) * 24 < (j : ℚ) * 24 := by
      have : (i : ℚ) < j := by exact_mod_cast hij
      linarith
    linarith
  · simp [titleOpsOptimized]
  · simp [titleOpsOptimized]

/-- Witness for the amended C8 on a one-image directory with a two-line
title. -/
theorem title_page_first_and_rendered_witness :
    ¬"A\nB" = "" ∧ (sortedImages exDirOne).isEmpty = false ∧
    ((∃ pagesP : List Page,
      (create_pdf_from_images exDirOne (some "A\nB") true).output = some pagesP ∧
      pagesP.countP Page.isTitle = 1 ∧
      pagesP.head? = some (Page.title (titleOpsPlain plainGeom "A\nB")) ∧
      pagesP.tail.countP Page.isImage = pagesP.tail.length) ∧
    (∃ pagesO : List Page,
      (create_mobile_optimized_pdf exDirOne (some "A\nB") "Daniel Rosehill" "June 15, 2025"
        true).output = some pagesO ∧
      pagesO.countP Page.isTitle = 1 ∧
      pagesO.head? = some (Page.title
        (titleOpsOptimized optimizedGeom "A\nB" "June 15, 2025" "Daniel Rosehill")) ∧
      pagesO.tail.countP Page.isImage = pagesO.tail.length) ∧
    DrawOp.centred (plainGeom.pageWidth / 2) (plainGeom.pageHeight * (6 / 10))
      "Helvetica-Bold" 24 "A\nB" ∈ titleOpsPlain plainGeom "A\nB" ∧
    ((titleOpsOptimized optimizedGeom "A\nB" "June 15, 2025" "Daniel Rosehill").drop 1).take
        (titleLines "A\nB").length =
      (titleLines "A\nB").enum.map (fun p =>
        DrawOp.centred (optimizedGeom.pageWidth / 2)
          (optimizedGeom.pageHeight * (65 / 100) - (p.1 : ℚ) * 24)
          "Helvetica-Bold" 20 p.2) ∧
    (∀ i j : ℕ, i < j →
      optimizedGeom.pageHeight * (65 / 100) - (j : ℚ) * 24 <
        optimizedGeom.pageHeight * (65 / 100) - (i : ℚ) * 24) ∧
    DrawOp.centred (optimizedGeom.pageWidth / 2) (optimizedGeom.pageHeight * (5 / 10))
      "Helvetica" 12 "June 15, 2025" ∈
      titleOpsOptimized optimizedGeom "A\nB" "June 15, 2025" "Daniel Rosehill" ∧
    DrawOp.centred (optimizedGeom.pageWidth / 2) (optimizedGeom.pageHeight * (45 / 100))
      "Helvetica" 10 ("By: " ++ "Daniel Rosehill") ∈
      titleOpsOptimized optimizedGeom "A\nB" "June 15, 2025" "Daniel Rosehill") :=
  ⟨by decide, by decide,
    title_page_first_and_rendered "A\nB" (by decide) exDirOne (by decide)
      "Daniel Rosehill" "June 15, 2025"⟩

/-! ### C9: an absent source directory -/

/-- C9 counterexample: with the wireless guide's directory absent, the
plain script's `main` emits no directory-absence report at all — the run's
events are exactly the other guide's banner and conversion. -/
theorem plain_main_silent_on_absent_directory :
    (mainPlain ⟨none, some exDirOne⟩ true).countP MainEvent.isDirNotFound = 0 ∧
    mainPlain ⟨none, some exDirOne⟩ true =
      [MainEvent.creating Guide.hfc,
       MainEvent.converted Guide.hfc
         (create_pdf_from_images exDirOne (some hfcTitle) true)] :=
  ⟨rfl, rfl⟩

/-- **C9 (amended)**: when a guide's source directory is absent, both
scripts skip that guide's conversion and still process the other guide;
the mobile-optimized script additionally reports the absence with an error
message, while the plain script skips silently. -/
theorem absent_directory_skipped_run_continues (wl hfc : List SrcImage)
    (dateStr : String) (saveOk : Bool) :
    (mainOptimized ⟨none, some hfc⟩ dateStr saveOk =
      [MainEvent.dirNotFound Guide.wireless,
       MainEvent.creating Guide.hfc,
       MainEvent.converted Guide.hfc
         (create_mobile_optimized_pdf hfc (some hfcTitle) "Daniel Rosehill"
           dateStr saveOk)]) ∧
    (mainOptimized ⟨some wl, none⟩ dateStr saveOk =
      [MainEvent.creating Guide.wireless,
       MainEvent.converted Guide.wireless
         (create_mobile_optimized_pdf wl (some wirelessTitle) "Daniel Rosehill"
           dateStr saveOk),
       MainEvent.dirNotFound Guide.hfc]) ∧
    (mainPlain ⟨none, some hfc⟩ saveOk =
      [MainEvent.creating Guide.hfc,
       MainEvent.converted Guide.hfc
         (create_pdf_from_images hfc (some hfcTitle) saveOk)]) ∧
    (mainPlain ⟨some wl, none⟩ saveOk =
      [MainEvent.creating Guide.wireless,
       MainEvent.converted Guide.wireless
         (create_pdf_from_images wl (some wirelessTitle) saveOk)]) :=
  ⟨rfl, rfl, rfl, rfl⟩

end HFCGuide
